import Mathlib

/-!
Verification of the document chunking and citation pipeline of the
rule-navigator backend (`app/services/pdf_service.py` and
`app/services/vector_service.py`), via a shallow embedding.

Python floats are modelled as rationals, Python strings as Lean strings
(sequences of unicode scalar values, matching Python code points; slicing
and length are expressed through `String.data` so that they compute by
kernel reduction).  The PyMuPDF (`fitz`) and ChromaDB collaborators are
modelled by their outputs: a page is a list of raw text spans, and a
vector-index query result is a list of rows carrying text, metadata and a
distance.
-/

namespace RuleNav

/-- `TextPosition` from `app/models/schemas.py`: an axis-aligned bounding
box on a page, four required float fields. -/
structure TextPosition where
  x0 : ℚ
  y0 : ℚ
  x1 : ℚ
  y1 : ℚ
deriving DecidableEq, Repr

/-- A fitz span bbox `[x0, y0, x1, y1]` as produced by
`page.get_text("dict")`. -/
abbrev BBox := ℚ × ℚ × ℚ × ℚ

/-- The repack `TextPosition(x0=p[0], y0=p[1], x1=p[2], y1=p[3])` done at
each yield site of `extract_document_chunks`. -/
def TextPosition.ofBBox (b : BBox) : TextPosition :=
  ⟨b.1, b.2.1, b.2.2.1, b.2.2.2⟩

/-- One text span of a page as collected from the fitz text dict:
`{"text": span text, "bbox": span bbox}` (`pdf_service.py` lines 154-166). -/
structure RawSpan where
  text : String
  bbox : BBox
deriving DecidableEq, Repr

/-- `DocumentChunk` from `app/models/schemas.py`. -/
structure DocumentChunk where
  id : String
  document_id : String
  document_title : String
  page_number : Nat
  chunk_index : Nat
  text : String
  positions : List TextPosition
deriving DecidableEq, Repr

/-- The mutable accumulator of the chunking loop:
`current_chunk_text`, `current_chunk_positions`, `current_length`. -/
structure ChunkAcc where
  texts : List String
  poss : List BBox
  len : Nat
deriving DecidableEq, Repr

/-- The accumulator contents at a yield site: the span texts and span
bboxes that make up one emitted chunk, before the final repack into a
`DocumentChunk`. -/
structure SpanGroup where
  texts : List String
  poss : List BBox
deriving DecidableEq, Repr

/-- `l[-3:] if len(l) > 3 else l` — the overlap seed taken at
`pdf_service.py` lines 194-195.  Note the count 3 is hardcoded there; the
`chunk_overlap` parameter is not consulted. -/
def lastThree {α : Type} (l : List α) : List α :=
  if l.length > 3 then l.drop (l.length - 3) else l

/-- `sum(len(t) for t in current_chunk_text)` (line 198). -/
def sumLens (ts : List String) : Nat :=
  (ts.map String.length).sum

/-- The per-page chunking loop of `extract_document_chunks`
(`pdf_service.py` lines 169-218), emitting the accumulator contents as
`SpanGroup`s.  For each span: if `current_length + len(text) > chunk_size`
and the accumulator is non-empty, the accumulator is emitted and re-seeded
with its last three spans; then the span is appended.  At end of page a
non-empty accumulator is emitted. -/
def pageGroupsAux (chunk_size : Nat) : List RawSpan → ChunkAcc → List SpanGroup
  | [], acc =>
      if acc.texts = [] then [] else [⟨acc.texts, acc.poss⟩]
  | s :: rest, acc =>
      if chunk_size < acc.len + s.text.length ∧ acc.texts ≠ [] then
        ⟨acc.texts, acc.poss⟩ ::
          pageGroupsAux chunk_size rest
            ⟨lastThree acc.texts ++ [s.text],
             lastThree acc.poss ++ [s.bbox],
             sumLens (lastThree acc.texts) + s.text.length⟩
      else
        pageGroupsAux chunk_size rest
          ⟨acc.texts ++ [s.text], acc.poss ++ [s.bbox],
           acc.len + s.text.length⟩

/-- Python truthiness of `text.strip()` (line 161): the span is kept iff
its text has a non-whitespace character. -/
def keepSpan (s : RawSpan) : Bool :=
  s.text.data.any (fun c => !c.isWhitespace)

/-- The chunk groups emitted for one page: the whitespace-only-span filter
of lines 160-166 followed by the chunking loop, started on an empty
accumulator. -/
def pageGroups (chunk_size : Nat) (spans : List RawSpan) : List SpanGroup :=
  pageGroupsAux chunk_size (spans.filter keepSpan) ⟨[], [], 0⟩

/-- The `DocumentChunk` built at a yield site (`pdf_service.py`
lines 179-190 and 206-217): id `f"{document_id}-p{page_num + 1}-c{chunk_index}"`,
text the space-join of the accumulated span texts, positions the repacked
accumulated bboxes. -/
def mkChunk (document_id title : String) (page_number chunk_index : Nat)
    (g : SpanGroup) : DocumentChunk :=
  { id := document_id ++ "-p" ++ toString page_number ++ "-c"
            ++ toString chunk_index
    document_id := document_id
    document_title := title
    page_number := page_number
    chunk_index := chunk_index
    text := String.intercalate " " g.texts
    positions := g.poss.map TextPosition.ofBBox }

/-- Number the groups of one page with consecutive chunk indices starting
at `chunk_index`, turning each into a `DocumentChunk`. -/
def assignIndices (document_id title : String) (page_number : Nat) :
    Nat → List SpanGroup → List DocumentChunk
  | _, [] => []
  | chunk_index, g :: gs =>
      mkChunk document_id title page_number chunk_index g ::
        assignIndices document_id title page_number (chunk_index + 1) gs

/-- The page loop of `extract_document_chunks` (lines 148-218): pages are
processed in order, `page_num + 1` is the 1-indexed page number, and
`chunk_index` is threaded through all pages without ever being reset. -/
def extractAux (document_id title : String) (chunk_size : Nat) :
    List (List RawSpan) → Nat → Nat → List DocumentChunk
  | [], _, _ => []
  | pg :: rest, page_number, chunk_index =>
      assignIndices document_id title page_number chunk_index
          (pageGroups chunk_size pg)
        ++ extractAux document_id title chunk_size rest (page_number + 1)
            (chunk_index + (pageGroups chunk_size pg).length)

/-- `PDFService.extract_document_chunks` (`pdf_service.py` lines 122-220),
with the document's pages (as span lists from fitz) and the title (derived
from the filename by `_format_title`) passed in place of the filesystem
lookup.  `chunk_overlap` is a parameter of the Python function (default
100) that its body never reads. -/
def extract_document_chunks (document_id title : String)
    (chunk_size chunk_overlap : Nat) (pages : List (List RawSpan)) :
    List DocumentChunk :=
  extractAux document_id title chunk_size pages 1 0

/-- The overlap contract between two consecutively emitted groups of one
page: the later group begins with exactly the trailing
`min 3 (span count)` spans of the earlier one, texts and bboxes alike. -/
def overlapRel (g g' : SpanGroup) : Prop :=
  g'.texts.take (min 3 g.texts.length)
      = g.texts.drop (g.texts.length - min 3 g.texts.length)
    ∧ g'.poss.take (min 3 g.poss.length)
      = g.poss.drop (g.poss.length - min 3 g.poss.length)

/-- The spec's worked example page:
`[("Rule", box1), ("101:", box2), ("Position", box3), ("Limits", box4)]`. -/
def c2spans : List RawSpan :=
  [⟨"Rule", (0, 0, 4, 1)⟩, ⟨"101:", (5, 0, 9, 1)⟩,
   ⟨"Position", (0, 1, 8, 2)⟩, ⟨"Limits", (9, 1, 15, 2)⟩]

/-! Vector service (`app/services/vector_service.py`): search-result rows
and the citation assembler of `VectorService.search`. -/

/-- A Python value as returned by `json.loads`: null, bool, number,
string, list or object (string-keyed dict). -/
inductive PyVal where
  | pynull
  | pybool (b : Bool)
  | pynum (q : ℚ)
  | pystr (s : String)
  | pylist (items : List PyVal)
  | pydict (entries : List (String × PyVal))

/-- Citation from `app/models/schemas.py`. -/
structure Citation where
  id : String
  document_id : String
  document_title : String
  page_number : Int
  excerpt : String
  positions : List TextPosition
  relevance_score : ℚ
  pdf_url : String
deriving DecidableEq, Repr

/-- The metadata dict of one query-result row.  Each field models
presence/absence of the corresponding key.  `positions` models
`metadata.get("positions")` followed by `json.loads`: `none` when the key
is absent or its value falsy, `some none` when `json.loads` raises
`JSONDecodeError`, and `some (some v)` when it parses to the value `v`. -/
structure RowMeta where
  document_id : Option String
  document_title : Option String
  page_number : Option Int
  positions : Option (Option PyVal)

/-- One row of `collection.query` output: id, stored chunk text, metadata
and distance (`vector_service.py` lines 141-144). -/
structure SearchRow where
  id : String
  document : String
  metadata : RowMeta
  distance : ℚ

/-- Exceptions the loop body of `search` can raise per row: a missing
metadata key (`metadata[...]` lookup) or a pydantic validation error from
`TextPosition(**p)`. -/
inductive PyErr where
  | keyError (k : String)
  | validationError
deriving DecidableEq, Repr

/-- The two exception kinds the position comprehension can raise:
`TypeError` (caught by the `except` clause together with
`JSONDecodeError`) and pydantic `ValidationError` (not caught). -/
inductive PosErr where
  | typeErr
  | validationErr
deriving DecidableEq, Repr

/-- `TextPosition(**p)` for one parsed JSON value `p`: a non-dict `p`
raises `TypeError`; a dict must supply numeric `x0`, `y0`, `x1`, `y1` or
pydantic raises `ValidationError` (the four fields of `TextPosition` in
`schemas.py` are required floats). -/
def tpOfItem : PyVal → Except PosErr TextPosition
  | PyVal.pydict es =>
      match es.lookup "x0", es.lookup "y0", es.lookup "x1", es.lookup "y1" with
      | some (PyVal.pynum a), some (PyVal.pynum b),
        some (PyVal.pynum c), some (PyVal.pynum d) =>
          Except.ok ⟨a, b, c, d⟩
      | _, _, _, _ => Except.error PosErr.validationErr
  | _ => Except.error PosErr.typeErr

/-- The comprehension `[TextPosition(**p) for p in pos_data]`: items are
converted left to right and the first exception aborts the list. -/
def tpList : List PyVal → Except PosErr (List TextPosition)
  | [] => Except.ok []
  | p :: ps =>
      match tpOfItem p with
      | Except.error e => Except.error e
      | Except.ok t =>
          match tpList ps with
          | Except.error e => Except.error e
          | Except.ok ts => Except.ok (t :: ts)

/-- Lines 151-159 of `vector_service.py`: `positions = []`; when the
stored metadata has a truthy `positions` value, parse it and build
`TextPosition`s, with `except (json.JSONDecodeError, TypeError): pass`.
An absent/falsy key, a JSON parse failure, a non-list parse result
(iterating it yields non-dicts, a caught `TypeError`, or nothing) and a
list containing a non-dict all leave `positions = []`; only a pydantic
`ValidationError` from a dict item escapes the handler (`.error ()`). -/
def parsePositionsField : Option (Option PyVal) → Except Unit (List TextPosition)
  | none => Except.ok []
  | some none => Except.ok []
  | some (some (PyVal.pylist items)) =>
      match tpList items with
      | Except.ok l => Except.ok l
      | Except.error PosErr.typeErr => Except.ok []
      | Except.error PosErr.validationErr => Except.error ()
  | some (some _) => Except.ok []

/-- `doc_id.replace("CME-", "")` on the code-point list: strip every
occurrence of `CME-`, scanning left to right. -/
def stripCME : List Char → List Char
  | 'C' :: 'M' :: 'E' :: '-' :: rest => stripCME rest
  | c :: cs => c :: stripCME cs
  | [] => []

/-- `round(x, 3)` as applied to the relevance score: round to the nearest
thousandth (Python rounds ties to even; ties at exact half-thousandths do
not arise in any claim, so `round`, which rounds half up, is used). -/
def pyRound3 (q : ℚ) : ℚ :=
  ((round (1000 * q) : ℤ) : ℚ) / 1000

/-- `relevance_score = max(0, 1 - (distance / 2))`
(`vector_service.py` line 148). -/
def relevanceOf (distance : ℚ) : ℚ :=
  max 0 (1 - distance / 2)

/-- The spec's formula `clamp(1 - d/2, 0, 1)`, written from the spec's
words for comparison with the code's `relevanceOf`. -/
def clampSpec (x lo hi : ℚ) : ℚ :=
  min hi (max lo x)

/-- `document[:300] + "..." if len(document) > 300 else document`
(line 171), with slicing expressed on the code-point list. -/
def excerptOf (document : String) : String :=
  if document.length > 300 then String.mk (document.data.take 300) ++ "..."
  else document

/-- The body of the result loop of `VectorService.search` (lines 141-175)
for one row, in evaluation order: compute the relevance, parse positions
(a pydantic `ValidationError` propagates), read `metadata["document_id"]`,
`metadata["document_title"]`, `metadata["page_number"]` (each raising
`KeyError` when absent), and build the `Citation` with the excerpt
truncation, the first five positions and the rounded score. -/
def citationOfRow (row : SearchRow) : Except PyErr Citation := do
  let relevance := relevanceOf row.distance
  let positions ←
    match parsePositionsField row.metadata.positions with
    | Except.ok l => pure l
    | Except.error _ => throw PyErr.validationError
  let doc_id ←
    match row.metadata.document_id with
    | some v => pure v
    | none => throw (PyErr.keyError "document_id")
  let filename := String.mk (stripCME doc_id.data) ++ ".pdf"
  let pdf_url := "/pdfs/" ++ filename
  let document_title ←
    match row.metadata.document_title with
    | some v => pure v
    | none => throw (PyErr.keyError "document_title")
  let page_number ←
    match row.metadata.page_number with
    | some v => pure v
    | none => throw (PyErr.keyError "page_number")
  pure { id := row.id
         document_id := doc_id
         document_title := document_title
         page_number := page_number
         excerpt := excerptOf row.document
         positions := positions.take 5
         relevance_score := pyRound3 relevance
         pdf_url := pdf_url }

/-- The result loop of `VectorService.search`: rows are processed in
order, each appending a citation; an exception raised for any row aborts
the whole call.  Zero rows give the empty list (lines 138-177). -/
def assemble_citations : List SearchRow → Except PyErr (List Citation)
  | [] => Except.ok []
  | row :: rest =>
      match citationOfRow row with
      | Except.error e => Except.error e
      | Except.ok c =>
          match assemble_citations rest with
          | Except.error e => Except.error e
          | Except.ok cs => Except.ok (c :: cs)

/-! Position finder (`pdf_service.py` lines 222-287).  The fitz document
store is modelled as a partial map from document id to a list of pages;
each page carries its dimensions and `page.search_for` as an oracle from
search text to hit boxes. -/

/-- One fitz page: its rect dimensions and its `search_for` results. -/
structure PageModel where
  width : ℚ
  height : ℚ
  searchHits : String → List TextPosition

/-- Fallback page for the (unreachable, bounds-checked) list access. -/
def defaultPage : PageModel :=
  ⟨0, 0, fun _ => []⟩

/-- The error taxonomy of `get_page_dimensions`: `FileNotFoundError` for a
missing document, `ValueError` for a page number out of range. -/
inductive PdfError where
  | notFound
  | outOfRange
deriving DecidableEq, Repr

/-- The dict returned by `get_page_dimensions`. -/
structure Dimensions where
  width : ℚ
  height : ℚ
  page_number : Int
  total_pages : Nat
deriving DecidableEq, Repr

/-- `PDFService.find_text_positions` (lines 222-263): returns `[]` when
the document path does not exist, when `page_number < 1 or
page_number > len(doc)`, and otherwise the `page.search_for(search_text)`
hits (empty when there is no match). -/
def find_text_positions (docs : String → Option (List PageModel))
    (document_id : String) (page_number : Int) (search_text : String) :
    List TextPosition :=
  match docs document_id with
  | none => []
  | some pages =>
      if page_number < 1 ∨ (pages.length : Int) < page_number then []
      else (pages.getD (page_number - 1).toNat defaultPage).searchHits
             search_text

/-- `PDFService.get_page_dimensions` (lines 265-287): raises
`FileNotFoundError` for a missing document and `ValueError` for
`page_number < 1 or page_number > len(doc)`; otherwise returns the page
rect dimensions with the page number and total page count. -/
def get_page_dimensions (docs : String → Option (List PageModel))
    (document_id : String) (page_number : Int) :
    Except PdfError Dimensions :=
  match docs document_id with
  | none => Except.error PdfError.notFound
  | some pages =>
      if page_number < 1 ∨ (pages.length : Int) < page_number then
        Except.error PdfError.outOfRange
      else
        let pg := pages.getD (page_number - 1).toNat defaultPage
        Except.ok ⟨pg.width, pg.height, page_number, pages.length⟩

/-! Concrete inputs for counterexamples and witnesses. -/

/-- A span fitting within chunk size 5. -/
def spanA : RawSpan := ⟨"aaaa", (0, 0, 1, 1)⟩

/-- A span longer than chunk size 5 (8 characters). -/
def spanB : RawSpan := ⟨"bbbbbbbb", (0, 1, 1, 2)⟩

/-- A non-empty accumulator reached after processing `spanA`. -/
def accW : ChunkAcc := ⟨["aaaa"], [(0, 0, 1, 1)], 4⟩

/-- A query-result row with complete metadata. -/
def goodRow : SearchRow :=
  ⟨"CME-101-p3-c7", "Position limits.",
   ⟨some "CME-101", some "CME Rule 101", some 3, none⟩, 0⟩

/-- The citation `search` builds for `goodRow`. -/
def goodCitation : Citation :=
  ⟨"CME-101-p3-c7", "CME-101", "CME Rule 101", 3, "Position limits.", [],
   pyRound3 (relevanceOf 0), "/pdfs/101.pdf"⟩

/-- A query-result row whose metadata lacks `document_title`. -/
def badRow : SearchRow :=
  ⟨"CME-101-p3-c8", "More text.", ⟨some "CME-101", none, some 3, none⟩, 0⟩

/-- A row whose stored positions parse to a JSON list containing a dict
without the required bounding-box fields. -/
def badPosRow : SearchRow :=
  ⟨"CME-101-p3-c9", "Corrupt positions.",
   ⟨some "CME-101", some "CME Rule 101", some 3,
    some (some (PyVal.pylist [PyVal.pydict []]))⟩, 0⟩

/-- A JSON dict with all four bounding-box fields. -/
def posDictW : List (String × PyVal) :=
  [("x0", PyVal.pynum 1), ("y0", PyVal.pynum 2),
   ("x1", PyVal.pynum 3), ("y1", PyVal.pynum 4)]

/-- A 301-character document text. -/
def longDoc : String := String.mk (List.replicate 301 'x')

/-- A fitz page with no hits for the text `margin`. -/
def pgW : PageModel :=
  ⟨612, 792, fun t => if t = "margin" then [] else [⟨1, 2, 3, 4⟩]⟩

/-- A document store holding one three-page document `CME-101`. -/
def docsW : String → Option (List PageModel) :=
  fun d => if d = "CME-101" then some [pgW, pgW, pgW] else none

/-! Helper lemmas about the overlap seed. -/

lemma lastThree_length {α : Type} (l : List α) :
    (lastThree l).length = min 3 l.length := by
  by_cases h : l.length > 3
  · simp only [lastThree, if_pos h, List.length_drop]
    omega
  · simp only [lastThree, if_neg h]
    omega

lemma lastThree_eq_drop {α : Type} (l : List α) :
    lastThree l = l.drop (l.length - min 3 l.length) := by
  by_cases h : l.length > 3
  · simp only [lastThree, if_pos h]
    congr 1
    omega
  · simp only [lastThree, if_neg h]
    have h0 : l.length - min 3 l.length = 0 := by omega
    rw [h0, List.drop_zero]

lemma lastThree_subset {α : Type} (l : List α) : ∀ x ∈ lastThree l, x ∈ l := by
  intro x hx
  by_cases h : l.length > 3
  · simp only [lastThree, if_pos h] at hx
    exact List.drop_subset _ _ hx
  · simpa only [lastThree, if_neg h] using hx

/-- Invariant of the chunking loop: the first group still to be emitted
extends the current accumulator, and consecutive emitted groups satisfy
the overlap contract. -/
lemma pageGroupsAux_spec (chunk_size : Nat) (spans : List RawSpan) :
    ∀ acc : ChunkAcc,
      (∀ g, (pageGroupsAux chunk_size spans acc).head? = some g →
          acc.texts <+: g.texts ∧ acc.poss <+: g.poss)
        ∧ List.Chain' overlapRel (pageGroupsAux chunk_size spans acc) := by
  induction spans with
  | nil =>
      intro acc
      by_cases h : acc.texts = []
      · constructor
        · intro g hg
          simp [pageGroupsAux, h] at hg
        · simp [pageGroupsAux, h]
      · constructor
        · intro g hg
          simp only [pageGroupsAux, if_neg h, List.head?_cons,
            Option.some.injEq] at hg
          subst hg
          exact ⟨List.prefix_refl _, List.prefix_refl _⟩
        · simp only [pageGroupsAux, if_neg h]
          exact List.chain'_singleton _
  | cons s rest ih =>
      intro acc
      by_cases hc : chunk_size < acc.len + s.text.length ∧ acc.texts ≠ []
      · constructor
        · intro g hg
          simp only [pageGroupsAux, if_pos hc, List.head?_cons,
            Option.some.injEq] at hg
          subst hg
          exact ⟨List.prefix_refl _, List.prefix_refl _⟩
        · simp only [pageGroupsAux, if_pos hc]
          rw [List.chain'_cons']
          refine ⟨?_, (ih _).2⟩
          intro y hy
          rw [Option.mem_def] at hy
          obtain ⟨ht, hp⟩ := (ih _).1 y hy
          constructor
          · have h1 : lastThree acc.texts <+: y.texts :=
              (List.prefix_append _ _).trans ht
            have h2 := List.prefix_iff_eq_take.mp h1
            rw [lastThree_length] at h2
            exact h2.symm.trans (lastThree_eq_drop _)
          · have h1 : lastThree acc.poss <+: y.poss :=
              (List.prefix_append _ _).trans hp
            have h2 := List.prefix_iff_eq_take.mp h1
            rw [lastThree_length] at h2
            exact h2.symm.trans (lastThree_eq_drop _)
      · constructor
        · intro g hg
          simp only [pageGroupsAux, if_neg hc] at hg
          obtain ⟨ht, hp⟩ := (ih _).1 g hg
          exact ⟨(List.prefix_append _ _).trans ht,
                 (List.prefix_append _ _).trans hp⟩
        · simp only [pageGroupsAux, if_neg hc]
          exact (ih _).2

/-- Every text in an emitted group is either still in the starting
accumulator or the text of one of the processed spans. -/
lemma pageGroupsAux_texts_mem (chunk_size : Nat) (spans : List RawSpan) :
    ∀ acc g t, g ∈ pageGroupsAux chunk_size spans acc → t ∈ g.texts →
      t ∈ acc.texts ∨ t ∈ spans.map RawSpan.text := by
  induction spans with
  | nil =>
      intro acc g t hg ht
      by_cases h : acc.texts = []
      · simp [pageGroupsAux, h] at hg
      · simp only [pageGroupsAux, if_neg h, List.mem_singleton] at hg
        subst hg
        exact Or.inl ht
  | cons s rest ih =>
      intro acc g t hg ht
      by_cases hc : chunk_size < acc.len + s.text.length ∧ acc.texts ≠ []
      · simp only [pageGroupsAux, if_pos hc, List.mem_cons] at hg
        rcases hg with rfl | hg
        · exact Or.inl ht
        · rcases ih _ g t hg ht with hacc | hrest
          · rcases List.mem_append.mp hacc with h1 | h1
            · exact Or.inl (lastThree_subset _ _ h1)
            · simp only [List.mem_singleton] at h1
              subst h1
              exact Or.inr (by simp)
          · right
            simp only [List.map_cons, List.mem_cons]
            exact Or.inr hrest
      · simp only [pageGroupsAux, if_neg hc] at hg
        rcases ih _ g t hg ht with hacc | hrest
        · rcases List.mem_append.mp hacc with h1 | h1
          · exact Or.inl h1
          · simp only [List.mem_singleton] at h1
            subst h1
            exact Or.inr (by simp)
        · right
          simp only [List.map_cons, List.mem_cons]
          exact Or.inr hrest

/-- C1: for every page processed by the chunk builder, every emitted chunk
except the first of that page begins with exactly the trailing
`min 3 (span count of the previous chunk)` spans — texts and bounding
boxes, in order — of the immediately preceding chunk emitted for that
page.  (`pageGroups` lists, in emission order, the accumulator contents
at the yield sites of `extract_document_chunks` for one page; each
`DocumentChunk` of the page is obtained from its group by `mkChunk`.) -/
theorem c1_overlap_contract (chunk_size : Nat) (spans : List RawSpan) :
    List.Chain'
      (fun g g' : SpanGroup =>
        g'.texts.take (min 3 g.texts.length)
            = g.texts.drop (g.texts.length - min 3 g.texts.length)
          ∧ g'.poss.take (min 3 g.poss.length)
            = g.poss.drop (g.poss.length - min 3 g.poss.length))
      (pageGroups chunk_size spans) :=
  (pageGroupsAux_spec chunk_size (spans.filter keepSpan) ⟨[], [], 0⟩).2

/-- C2 counterexample: on the spec's example page with `chunk_size = 10`
and `chunk_overlap = 1`, the chunk builder does not produce the two chunk
texts the claim states.  The overlap is hardcoded to the last three spans,
so the second chunk is re-seeded with both spans of the first chunk, not
with one. -/
theorem c2_counterexample :
    (extract_document_chunks "CME-101" "CME Rule 101" 10 1 [c2spans]).map
        DocumentChunk.text
      ≠ ["Rule 101:", "101: Position Limits"] := by
  decide

/-- C2 amended: on the page `["Rule", "101:", "Position", "Limits"]` with
`chunk_size = 10` the builder emits three chunks, each seeded with the
last `min 3 (span count)` spans of its predecessor, whatever the value
of `chunk_overlap`: "Rule 101:", "Rule 101: Position",
"Rule 101: Position Limits". -/
theorem c2_amended :
    (extract_document_chunks "CME-101" "CME Rule 101" 10 1 [c2spans]).map
        DocumentChunk.text
      = ["Rule 101:", "Rule 101: Position", "Rule 101: Position Limits"] := by
  decide

/-- C3 counterexample: with `chunk_size = 5`, the page
`["aaaa", "bbbbbbbb"]` contains the oversized span `"bbbbbbbb"` (length 8),
yet the chunk containing it is `["aaaa", "bbbbbbbb"]` — the overlap spans
seeded from the previously emitted chunk precede it, so it is not the sole
content of its chunk. -/
theorem c3_counterexample :
    5 < spanB.text.length
    ∧ (pageGroups 5 [spanA, spanB]).map SpanGroup.texts
        = [["aaaa"], ["aaaa", "bbbbbbbb"]]
    ∧ ((pageGroups 5 [spanA, spanB]).getD 1 ⟨[], []⟩).texts
        ≠ [spanB.text] := by
  decide

/-- C3 amended: spans are never split — every text of every emitted chunk
is the text of an input span — and on arrival of a span that would
overflow `chunk_size` (in particular any oversized span) a non-empty
accumulator is emitted first; but the new accumulator is seeded with the
overlap spans of the emitted chunk before the oversized span is appended,
so the oversized span's chunk also contains those overlap spans and is the
sole content only when the accumulator was empty. -/
theorem c3_amended :
    (∀ (chunk_size : Nat) (spans : List RawSpan) (g : SpanGroup) (t : String),
        g ∈ pageGroups chunk_size spans → t ∈ g.texts →
          t ∈ spans.map RawSpan.text)
    ∧ (∀ (chunk_size : Nat) (acc : ChunkAcc) (s : RawSpan)
          (rest : List RawSpan),
        acc.texts ≠ [] → chunk_size < s.text.length →
          pageGroupsAux chunk_size (s :: rest) acc =
            ⟨acc.texts, acc.poss⟩ ::
              pageGroupsAux chunk_size rest
                ⟨lastThree acc.texts ++ [s.text],
                 lastThree acc.poss ++ [s.bbox],
                 sumLens (lastThree acc.texts) + s.text.length⟩) := by
  constructor
  · intro chunk_size spans g t hg ht
    rcases pageGroupsAux_texts_mem chunk_size (spans.filter keepSpan) _ g t
        hg ht with h | h
    · exact absurd h (List.not_mem_nil t)
    · rcases List.mem_map.mp h with ⟨sp, hsp, rfl⟩
      exact List.mem_map_of_mem _ (List.mem_of_mem_filter hsp)
  · intro chunk_size acc s rest hne hbig
    have hcond : chunk_size < acc.len + s.text.length ∧ acc.texts ≠ [] :=
      ⟨lt_of_lt_of_le hbig (Nat.le_add_left _ _), hne⟩
    simp only [pageGroupsAux, if_pos hcond]

/-- Witness for the amended C3 at concrete inputs. -/
theorem c3_amended_witness :
    (⟨["aaaa"], [(0, 0, 1, 1)]⟩ : SpanGroup) ∈ pageGroups 5 [spanA, spanB]
    ∧ "aaaa" ∈ (⟨["aaaa"], [(0, 0, 1, 1)]⟩ : SpanGroup).texts
    ∧ "aaaa" ∈ [spanA, spanB].map RawSpan.text
    ∧ accW.texts ≠ []
    ∧ 5 < spanB.text.length
    ∧ pageGroupsAux 5 [spanB] accW =
        ⟨accW.texts, accW.poss⟩ ::
          pageGroupsAux 5 []
            ⟨lastThree accW.texts ++ [spanB.text],
             lastThree accW.poss ++ [spanB.bbox],
             sumLens (lastThree accW.texts) + spanB.text.length⟩ := by
  refine ⟨by decide, by decide, ?_, by decide, by decide, ?_⟩
  · exact c3_amended.1 5 [spanA, spanB] ⟨["aaaa"], [(0, 0, 1, 1)]⟩ "aaaa"
      (by decide) (by decide)
  · exact c3_amended.2 5 accW spanB [] (by decide) (by decide)

/-- C4: for a non-negative distance `d` the stored relevance score
`round(max(0, 1 - d/2), 3)` equals the spec's `clamp(1 - d/2, 0, 1)`
rounded to three decimals, lies in `[0, 1]`, is non-increasing in the
distance, and takes the values 1, 0, 0 at distances 0, 2, 3. -/
theorem c4_relevance_score (d d2 : ℚ) (hd : 0 ≤ d) (hdd : d ≤ d2) :
    pyRound3 (relevanceOf d) = pyRound3 (clampSpec (1 - d / 2) 0 1)
    ∧ 0 ≤ pyRound3 (relevanceOf d)
    ∧ pyRound3 (relevanceOf d) ≤ 1
    ∧ pyRound3 (relevanceOf d2) ≤ pyRound3 (relevanceOf d)
    ∧ pyRound3 (relevanceOf 0) = 1
    ∧ pyRound3 (relevanceOf 2) = 0
    ∧ pyRound3 (relevanceOf 3) = 0 := by
  have hmono : ∀ x y : ℚ, x ≤ y → pyRound3 x ≤ pyRound3 y := by
    intro x y hxy
    unfold pyRound3
    have hr : round (1000 * x) ≤ round (1000 * y) := by
      rw [round_eq, round_eq]
      exact Int.floor_le_floor (by linarith)
    have h2 : ((round (1000 * x) : ℤ) : ℚ) ≤ ((round (1000 * y) : ℤ) : ℚ) := by
      exact_mod_cast hr
    linarith
  have hub : relevanceOf d ≤ 1 := by
    unfold relevanceOf
    exact max_le (by norm_num) (by linarith)
  have hlb : 0 ≤ relevanceOf d := by
    unfold relevanceOf
    exact le_max_left _ _
  have h0 : pyRound3 0 = 0 := by unfold pyRound3; norm_num
  have h1 : pyRound3 1 = 1 := by unfold pyRound3; norm_num
  refine ⟨?_, ?_, ?_, ?_, ?_, ?_, ?_⟩
  · have hcl : clampSpec (1 - d / 2) 0 1 = relevanceOf d := by
      unfold clampSpec relevanceOf
      exact min_eq_right (max_le (by norm_num) (by linarith))
    rw [hcl]
  · calc (0 : ℚ) = pyRound3 0 := h0.symm
      _ ≤ pyRound3 (relevanceOf d) := hmono _ _ hlb
  · calc pyRound3 (relevanceOf d) ≤ pyRound3 1 := hmono _ _ hub
      _ = 1 := h1
  · apply hmono
    unfold relevanceOf
    exact max_le_max le_rfl (by linarith)
  · unfold pyRound3 relevanceOf
    norm_num
  · unfold pyRound3 relevanceOf
    norm_num
  · unfold pyRound3 relevanceOf
    norm_num

/-- Witness for C4 at distances 1 and 3. -/
theorem c4_witness :
    (0 : ℚ) ≤ 1 ∧ (1 : ℚ) ≤ 3
    ∧ (pyRound3 (relevanceOf 1) = pyRound3 (clampSpec (1 - 1 / 2) 0 1)
       ∧ 0 ≤ pyRound3 (relevanceOf 1)
       ∧ pyRound3 (relevanceOf 1) ≤ 1
       ∧ pyRound3 (relevanceOf 3) ≤ pyRound3 (relevanceOf 1)
       ∧ pyRound3 (relevanceOf 0) = 1
       ∧ pyRound3 (relevanceOf 2) = 0
       ∧ pyRound3 (relevanceOf 3) = 0) :=
  ⟨by decide, by decide, c4_relevance_score 1 3 (by decide) (by decide)⟩

/-- C5: the citation excerpt equals the stored chunk text when its length
is at most 300 characters, and otherwise equals the first 300 characters
followed by the literal ellipsis marker; the marker is appended exactly in
the truncation branch. -/
theorem c5_excerpt_truncation (s : String) :
    (s.length ≤ 300 → excerptOf s = s)
    ∧ (300 < s.length →
        excerptOf s = String.mk (s.data.take 300) ++ "...") := by
  constructor
  · intro h
    unfold excerptOf
    rw [if_neg (by omega)]
  · intro h
    unfold excerptOf
    rw [if_pos (by omega)]

set_option maxRecDepth 8000 in
/-- Witness for C5 on a 5-character and a 301-character text. -/
theorem c5_witness :
    ("short".length ≤ 300 ∧ excerptOf "short" = "short")
    ∧ (300 < longDoc.length
       ∧ excerptOf longDoc = String.mk (longDoc.data.take 300) ++ "...") :=
  ⟨⟨by decide, (c5_excerpt_truncation "short").1 (by decide)⟩,
   ⟨by decide, (c5_excerpt_truncation longDoc).2 (by decide)⟩⟩

/-! Helper lemmas for the chunk-index bookkeeping. -/

lemma assignIndices_length (document_id title : String) (page_number : Nat) :
    ∀ (chunk_index : Nat) (gs : List SpanGroup),
      (assignIndices document_id title page_number chunk_index gs).length
        = gs.length := by
  intro ci gs
  induction gs generalizing ci with
  | nil => rfl
  | cons g gs ih => simp [assignIndices, ih]

lemma assignIndices_map_index (document_id title : String)
    (page_number : Nat) :
    ∀ (chunk_index : Nat) (gs : List SpanGroup),
      (assignIndices document_id title page_number chunk_index gs).map
          DocumentChunk.chunk_index
        = List.range' chunk_index gs.length := by
  intro ci gs
  induction gs generalizing ci with
  | nil => rfl
  | cons g gs ih =>
      simp [assignIndices, mkChunk, ih, List.range']

lemma assignIndices_id (document_id title : String) (page_number : Nat) :
    ∀ (chunk_index : Nat) (gs : List SpanGroup) (c : DocumentChunk),
      c ∈ assignIndices document_id title page_number chunk_index gs →
        c.id = document_id ++ "-p" ++ toString c.page_number ++ "-c"
          ++ toString c.chunk_index := by
  intro ci gs
  induction gs generalizing ci with
  | nil =>
      intro c hc
      cases hc
  | cons g gs ih =>
      intro c hc
      rcases List.mem_cons.mp hc with rfl | hc
      · rfl
      · exact ih _ c hc

lemma extractAux_map_index (document_id title : String) (chunk_size : Nat) :
    ∀ (pages : List (List RawSpan)) (page_number chunk_index : Nat),
      (extractAux document_id title chunk_size pages page_number
          chunk_index).map DocumentChunk.chunk_index
        = List.range' chunk_index
            (extractAux document_id title chunk_size pages page_number
              chunk_index).length := by
  intro pages
  induction pages with
  | nil =>
      intro pn ci
      rfl
  | cons pg rest ih =>
      intro pn ci
      simp only [extractAux, List.map_append, List.length_append]
      rw [assignIndices_map_index, ih, assignIndices_length]
      rw [List.range'_append_1, Nat.add_comm]

lemma extractAux_id (document_id title : String) (chunk_size : Nat) :
    ∀ (pages : List (List RawSpan)) (page_number chunk_index : Nat)
      (c : DocumentChunk),
      c ∈ extractAux document_id title chunk_size pages page_number
            chunk_index →
        c.id = document_id ++ "-p" ++ toString c.page_number ++ "-c"
          ++ toString c.chunk_index := by
  intro pages
  induction pages with
  | nil =>
      intro pn ci c hc
      cases hc
  | cons pg rest ih =>
      intro pn ci c hc
      simp only [extractAux] at hc
      rcases List.mem_append.mp hc with h | h
      · exact assignIndices_id document_id title pn ci _ c h
      · exact ih _ _ c h

/-- C9: across all pages of a document the emitted chunk indices are
`0, 1, 2, ...` in emission order — never reset at a page boundary — and
every chunk's id is `"{document_id}-p{page}-c{chunk_index}"` built from
its 1-indexed page number and its chunk index. -/
theorem c9_sequential_indices (document_id title : String)
    (chunk_size chunk_overlap : Nat) (pages : List (List RawSpan)) :
    (extract_document_chunks document_id title chunk_size chunk_overlap
        pages).map DocumentChunk.chunk_index
      = List.range
          (extract_document_chunks document_id title chunk_size
            chunk_overlap pages).length
    ∧ ∀ c ∈ extract_document_chunks document_id title chunk_size
          chunk_overlap pages,
        c.id = document_id ++ "-p" ++ toString c.page_number ++ "-c"
          ++ toString c.chunk_index := by
  constructor
  · rw [List.range_eq_range']
    exact extractAux_map_index document_id title chunk_size pages 1 0
  · intro c hc
    exact extractAux_id document_id title chunk_size pages 1 0 c hc

/-- Witness for C9 on the example document. -/
theorem c9_witness :
    (extract_document_chunks "CME-101" "CME Rule 101" 10 1 [c2spans]).map
        DocumentChunk.chunk_index
      = List.range
          (extract_document_chunks "CME-101" "CME Rule 101" 10 1
            [c2spans]).length
    ∧ (⟨"CME-101-p1-c0", "CME-101", "CME Rule 101", 1, 0, "Rule 101:",
          [⟨0, 0, 4, 1⟩, ⟨5, 0, 9, 1⟩]⟩ : DocumentChunk)
        ∈ extract_document_chunks "CME-101" "CME Rule 101" 10 1 [c2spans]
    ∧ (⟨"CME-101-p1-c0", "CME-101", "CME Rule 101", 1, 0, "Rule 101:",
          [⟨0, 0, 4, 1⟩, ⟨5, 0, 9, 1⟩]⟩ : DocumentChunk).id
        = "CME-101" ++ "-p" ++ toString (1 : Nat) ++ "-c"
          ++ toString (0 : Nat) :=
  ⟨(c9_sequential_indices "CME-101" "CME Rule 101" 10 1 [c2spans]).1,
   by decide,
   (c9_sequential_indices "CME-101" "CME Rule 101" 10 1 [c2spans]).2 _
     (by decide)⟩

/-- C10: the `chunk_overlap` parameter has no effect on the output of
`extract_document_chunks`: the body never reads it — the overlap is always
the last three spans of the previous chunk — so any two values give
identical chunk sequences. -/
theorem c10_chunk_overlap_unused (document_id title : String)
    (chunk_size o1 o2 : Nat) (pages : List (List RawSpan)) :
    extract_document_chunks document_id title chunk_size o1 pages
      = extract_document_chunks document_id title chunk_size o2 pages := rfl

/-- An exception raised for any row aborts the whole result loop: when a
prefix of rows assembles cleanly and the next row raises, the call returns
that error and discards the earlier citations. -/
lemma assemble_append_error :
    ∀ (pre : List SearchRow) (cs : List Citation) (row : SearchRow)
      (post : List SearchRow) (e : PyErr),
      assemble_citations pre = Except.ok cs →
      citationOfRow row = Except.error e →
      assemble_citations (pre ++ row :: post) = Except.error e := by
  intro pre
  induction pre with
  | nil =>
      intro cs row post e hpre hrow
      simp only [List.nil_append, assemble_citations, hrow]
  | cons r rs ih =>
      intro cs row post e hpre hrow
      simp only [assemble_citations] at hpre
      simp only [List.cons_append, assemble_citations]
      cases hcr : citationOfRow r with
      | error e2 =>
          rw [hcr] at hpre
          exact absurd hpre (by simp)
      | ok c =>
          rw [hcr] at hpre
          dsimp only at hpre
          dsimp only
          simp only [List.append_eq]
          cases hrs : assemble_citations rs with
          | error e2 =>
              rw [hrs] at hpre
              exact absurd hpre (by simp)
          | ok cs2 =>
              rw [ih cs2 row post e hrs hrow]

/-- C6 counterexample: a well-formed row followed by a row missing
`document_title` makes the whole query fail with a `KeyError` — the
malformed row is not skipped and the well-formed row's citation is not
returned. -/
theorem c6_counterexample :
    citationOfRow goodRow = Except.ok goodCitation
    ∧ assemble_citations [goodRow, badRow]
        = Except.error (PyErr.keyError "document_title") :=
  ⟨rfl, rfl⟩

/-- C6 amended: a result row missing a required metadata field
(`document_id`, `document_title` or `page_number`) raises a `KeyError`
that aborts the whole query — no citations are returned, not even for the
well-formed rows — while an empty result set still yields the empty
citation list, not an error. -/
theorem c6_amended (pre post : List SearchRow) (cs : List Citation)
    (row : SearchRow) (e : PyErr)
    (hpre : assemble_citations pre = Except.ok cs)
    (hrow : citationOfRow row = Except.error e) :
    assemble_citations [] = Except.ok []
    ∧ assemble_citations (pre ++ row :: post) = Except.error e :=
  ⟨rfl, assemble_append_error pre cs row post e hpre hrow⟩

/-- Witness for the amended C6 at concrete rows. -/
theorem c6_amended_witness :
    assemble_citations [goodRow] = Except.ok [goodCitation]
    ∧ citationOfRow badRow = Except.error (PyErr.keyError "document_title")
    ∧ (assemble_citations [] = Except.ok []
       ∧ assemble_citations ([goodRow] ++ badRow :: [])
           = Except.error (PyErr.keyError "document_title")) :=
  ⟨rfl, rfl,
   c6_amended [goodRow] [] [goodCitation] badRow
     (PyErr.keyError "document_title") rfl rfl⟩

/-- C7 counterexample: a row whose stored positions deserialize to a JSON
list containing an object without the required bounding-box fields makes
the whole search call fail with the pydantic validation error — the error
is propagated, the citation is not returned with an empty position
list. -/
theorem c7_counterexample :
    assemble_citations [badPosRow] = Except.error PyErr.validationError :=
  rfl

/-- C7 amended: an absent or falsy positions value, a JSON parse failure,
a parse result that is not a list, and a list whose conversion raises
`TypeError` (a non-mapping item) are all recovered as the empty position
list; but a list item that is a mapping failing bounding-box validation
raises a validation error that propagates to the caller. -/
theorem c7_amended :
    parsePositionsField none = Except.ok []
    ∧ parsePositionsField (some none) = Except.ok []
    ∧ (∀ v : PyVal, (∀ items : List PyVal, v ≠ PyVal.pylist items) →
        parsePositionsField (some (some v)) = Except.ok [])
    ∧ (∀ items : List PyVal, tpList items = Except.error PosErr.typeErr →
        parsePositionsField (some (some (PyVal.pylist items)))
          = Except.ok [])
    ∧ (∀ (items : List PyVal) (ts : List TextPosition),
        tpList items = Except.ok ts →
        parsePositionsField (some (some (PyVal.pylist items)))
          = Except.ok ts)
    ∧ (∀ items : List PyVal,
        tpList items = Except.error PosErr.validationErr →
        parsePositionsField (some (some (PyVal.pylist items)))
          = Except.error ()) := by
  refine ⟨rfl, rfl, ?_, ?_, ?_, ?_⟩
  · intro v hv
    cases v with
    | pynull => rfl
    | pybool b => rfl
    | pynum q => rfl
    | pystr s => rfl
    | pylist items => exact absurd rfl (hv items)
    | pydict es => rfl
  · intro items h
    simp only [parsePositionsField, h]
  · intro items ts h
    simp only [parsePositionsField, h]
  · intro items h
    simp only [parsePositionsField, h]

/-- Witness for the amended C7 at concrete stored-position values. -/
theorem c7_amended_witness :
    parsePositionsField (some (some (PyVal.pystr "oops"))) = Except.ok []
    ∧ tpList [PyVal.pynum 1] = Except.error PosErr.typeErr
    ∧ parsePositionsField (some (some (PyVal.pylist [PyVal.pynum 1])))
        = Except.ok []
    ∧ tpList [PyVal.pydict posDictW] = Except.ok [⟨1, 2, 3, 4⟩]
    ∧ parsePositionsField (some (some (PyVal.pylist [PyVal.pydict posDictW])))
        = Except.ok [⟨1, 2, 3, 4⟩]
    ∧ tpList [PyVal.pydict []] = Except.error PosErr.validationErr
    ∧ parsePositionsField (some (some (PyVal.pylist [PyVal.pydict []])))
        = Except.error () :=
  ⟨c7_amended.2.2.1 (PyVal.pystr "oops") (fun items h => PyVal.noConfusion h),
   rfl,
   c7_amended.2.2.2.1 [PyVal.pynum 1] rfl,
   rfl,
   c7_amended.2.2.2.2.1 [PyVal.pydict posDictW] [⟨1, 2, 3, 4⟩] rfl,
   rfl,
   c7_amended.2.2.2.2.2 [PyVal.pydict []] rfl⟩

/-- C8: `find_text_positions` returns the empty list — not an error —
when the document does not exist, when the page number is out of range,
and when the page search finds no match; `get_page_dimensions` instead
fails with `FileNotFoundError` for a missing document and with
`ValueError` for a page number outside `[1, total_pages]`. -/
theorem c8_empty_vs_error (docs : String → Option (List PageModel))
    (document_id : String) (page_number : Int) (search_text : String)
    (pages : List PageModel) :
    (docs document_id = none →
      find_text_positions docs document_id page_number search_text = [])
    ∧ (docs document_id = some pages →
        (page_number < 1 ∨ (pages.length : Int) < page_number) →
        find_text_positions docs document_id page_number search_text = [])
    ∧ (docs document_id = some pages → 1 ≤ page_number →
        page_number ≤ (pages.length : Int) →
        (pages.getD (page_number - 1).toNat defaultPage).searchHits
            search_text = [] →
        find_text_positions docs document_id page_number search_text = [])
    ∧ (docs document_id = none →
        get_page_dimensions docs document_id page_number
          = Except.error PdfError.notFound)
    ∧ (docs document_id = some pages →
        (page_number < 1 ∨ (pages.length : Int) < page_number) →
        get_page_dimensions docs document_id page_number
          = Except.error PdfError.outOfRange) := by
  refine ⟨?_, ?_, ?_, ?_, ?_⟩
  · intro h
    unfold find_text_positions
    rw [h]
  · intro h hrange
    unfold find_text_positions
    rw [h]
    dsimp only
    rw [if_pos hrange]
  · intro h h1 h2 hhits
    unfold find_text_positions
    rw [h]
    dsimp only
    rw [if_neg (by simp only [not_or, not_lt]; exact ⟨h1, h2⟩)]
    exact hhits
  · intro h
    unfold get_page_dimensions
    rw [h]
  · intro h hrange
    unfold get_page_dimensions
    rw [h]
    dsimp only
    rw [if_pos hrange]

/-- Witness for C8 on a concrete three-page document store. -/
theorem c8_witness :
    (docsW "CME-999" = none
     ∧ find_text_positions docsW "CME-999" 1 "margin" = [])
    ∧ (docsW "CME-101" = some [pgW, pgW, pgW]
       ∧ ((5 : Int) < 1 ∨ (([pgW, pgW, pgW].length : Nat) : Int) < 5)
       ∧ find_text_positions docsW "CME-101" 5 "margin" = [])
    ∧ ((1 : Int) ≤ 3 ∧ (3 : Int) ≤ (([pgW, pgW, pgW].length : Nat) : Int)
       ∧ ([pgW, pgW, pgW].getD ((3 : Int) - 1).toNat defaultPage).searchHits
           "margin" = []
       ∧ find_text_positions docsW "CME-101" 3 "margin" = [])
    ∧ get_page_dimensions docsW "CME-999" 1 = Except.error PdfError.notFound
    ∧ get_page_dimensions docsW "CME-101" 5
        = Except.error PdfError.outOfRange := by
  refine ⟨⟨rfl, ?_⟩, ⟨rfl, ?_, ?_⟩, ⟨by decide, by decide, ?_, ?_⟩, ?_, ?_⟩
  · exact (c8_empty_vs_error docsW "CME-999" 1 "margin" []).1 rfl
  · decide
  · exact (c8_empty_vs_error docsW "CME-101" 5 "margin"
      [pgW, pgW, pgW]).2.1 rfl (by decide)
  · decide
  · exact (c8_empty_vs_error docsW "CME-101" 3 "margin"
      [pgW, pgW, pgW]).2.2.1 rfl (by decide) (by decide) (by decide)
  · exact (c8_empty_vs_error docsW "CME-999" 1 "margin"
      []).2.2.2.1 rfl
  · exact (c8_empty_vs_error docsW "CME-101" 5 "margin"
      [pgW, pgW, pgW]).2.2.2.2 rfl (by decide)

end RuleNav
